import Mathlib

/-!
Verification of the GroundTruth marketing-analytics engine
(`backend/kpi_calculator.py`, `backend/anomaly_detector.py`,
`backend/weather_analyzer.py`, `backend/benchmarking.py`).

The Python code is shallowly embedded: numeric columns become lists of
rational numbers (`Option ℚ` where pandas admits missing values, i.e. NaN
cells), pandas/NumPy floating-point results that can be NaN or infinite are
modelled by the inductive type `PFloat`, and Python dicts that matter for
key-presence questions become association lists.  External libraries
(scipy's `pearsonr`, NumPy's square root inside `pandas.Series.std`) are
parameters of the embedded functions, constrained by explicit hypotheses
where a theorem depends on their actual values.
-/

namespace GroundTruth

/-- Pandas/NumPy floating-point value as far as the embedded code observes
it: an exact rational, one of the two infinities, or NaN.  Comparisons with
NaN are false, mirroring IEEE-754 semantics used by pandas. -/
inductive PFloat where
  | num (q : ℚ)
  | posInf
  | negInf
  | nan
deriving DecidableEq, Repr

namespace PFloat

/-- Division of two exact rationals under pandas semantics: a nonzero
numerator over zero gives a signed infinity, `0/0` gives NaN. -/
def pdiv (a b : ℚ) : PFloat :=
  if b ≠ 0 then num (a / b)
  else if a > 0 then posInf
  else if a < 0 then negInf
  else nan

/-- Subtraction on pandas floats (IEEE-754 semantics for the special
values; `∞ - ∞` is NaN, NaN propagates). -/
def psub : PFloat → PFloat → PFloat
  | num a, num b => num (a - b)
  | num _, posInf => negInf
  | num _, negInf => posInf
  | posInf, num _ => posInf
  | negInf, num _ => negInf
  | posInf, negInf => posInf
  | negInf, posInf => negInf
  | posInf, posInf => nan
  | negInf, negInf => nan
  | nan, _ => nan
  | _, nan => nan

/-- Multiplication on pandas floats (`±∞ * 0` is NaN, NaN propagates). -/
def pmul : PFloat → PFloat → PFloat
  | num a, num b => num (a * b)
  | num a, posInf => if a > 0 then posInf else if a < 0 then negInf else nan
  | num a, negInf => if a > 0 then negInf else if a < 0 then posInf else nan
  | posInf, num b => if b > 0 then posInf else if b < 0 then negInf else nan
  | negInf, num b => if b > 0 then negInf else if b < 0 then posInf else nan
  | posInf, posInf => posInf
  | posInf, negInf => negInf
  | negInf, posInf => negInf
  | negInf, negInf => posInf
  | nan, _ => nan
  | _, nan => nan

/-- Division on pandas floats (NaN propagates, `±∞ / ±∞` is NaN, a finite
value over `±∞` is zero). -/
def pdivP : PFloat → PFloat → PFloat
  | num a, num b => pdiv a b
  | num _, posInf => num 0
  | num _, negInf => num 0
  | posInf, num b => if b ≥ 0 then posInf else negInf
  | negInf, num b => if b ≥ 0 then negInf else posInf
  | posInf, posInf => nan
  | posInf, negInf => nan
  | negInf, posInf => nan
  | negInf, negInf => nan
  | nan, _ => nan
  | _, nan => nan

/-- Absolute value on pandas floats. -/
def pabs : PFloat → PFloat
  | num a => num |a|
  | posInf => posInf
  | negInf => posInf
  | nan => nan

/-- Strict comparison of a pandas float against an exact rational; any
comparison involving NaN is false (IEEE-754). -/
def pgtQ : PFloat → ℚ → Bool
  | num a, q => a > q
  | posInf, _ => true
  | negInf, _ => false
  | nan, _ => false

/-- Strict comparison between two pandas floats; any comparison involving
NaN is false (IEEE-754). -/
def pgtP : PFloat → PFloat → Bool
  | num a, num b => a > b
  | num _, posInf => false
  | num _, negInf => true
  | posInf, num _ => true
  | posInf, negInf => true
  | negInf, _ => false
  | posInf, posInf => false
  | nan, _ => false
  | _, nan => false

/-- Strict less-than between two pandas floats (IEEE-754, NaN incomparable). -/
def pltP (a b : PFloat) : Bool := pgtP b a

/-- Python's `x != 0` on a float: true for every value except the number 0
(in particular true for NaN and the infinities). -/
def pne0 : PFloat → Bool
  | num a => a ≠ 0
  | _ => true

/-- Pandas `fillna(0)`: replace NaN by the number 0; infinities are not NA
and pass through unchanged. -/
def fillna0 : PFloat → PFloat
  | nan => num 0
  | x => x

/-- Lift an optional rational (a possibly-missing cell) to a pandas float. -/
def ofOpt : Option ℚ → PFloat
  | some q => num q
  | Option.none => nan

end PFloat

open PFloat

/-- Sum of the non-missing entries of a column, as computed by
`pandas.Series.sum()` (NaN entries are skipped and an all-NaN column sums
to 0). -/
def colSum (col : List (Option ℚ)) : ℚ :=
  (col.filterMap id).sum

/-- Arithmetic mean of a list of rationals (denominator taken in ℚ). -/
def listMean (l : List ℚ) : ℚ :=
  l.sum / (l.length : ℚ)

/-- Mean of a column as computed by `pandas.Series.mean()`: NaN entries are
skipped, and the mean of an all-NaN (or empty) column is NaN. -/
def colMean (col : List (Option ℚ)) : PFloat :=
  let data := col.filterMap id
  if data.isEmpty then PFloat.nan else PFloat.num (listMean data)

/-- Sample variance with `ddof = 1`, the quantity whose square root
`pandas.Series.std()` returns. -/
def sampleVar (l : List ℚ) : ℚ :=
  (l.map (fun x => (x - listMean l) ^ 2)).sum / ((l.length : ℚ) - 1)

/-- Specification of a faithful model `stdFn` of `pandas.Series.std()` on a
given list of non-missing values: it returns the nonnegative square root of
the sample variance. -/
def IsStdOn (stdFn : List ℚ → ℚ) (l : List ℚ) : Prop :=
  stdFn l * stdFn l = sampleVar l ∧ 0 ≤ stdFn l

/- ----------------------------------------------------------------------
KPI Aggregator (`backend/kpi_calculator.py`)
---------------------------------------------------------------------- -/

/-- One row of the combined dataframe as consumed by `KPICalculator`.
Numeric counters are `Option ℚ` (NaN cells are `Option.none`); the `date`
column is modelled as an integer day number. -/
structure KRow where
  date : ℤ
  channel : String
  campaign : String
  city : String
  impressions : Option ℚ
  clicks : Option ℚ
  conversions : Option ℚ
  spend : Option ℚ
  revenue : Option ℚ
  visits : Option ℚ
deriving DecidableEq, Repr

/-- Result record of `KPICalculator.calculate_basic_kpis` (the
presentation-only daily-average fields are included; the ratios are plain
rationals because every division is guarded by a positivity test). -/
structure BasicKpis where
  total_impressions : ℚ
  total_clicks : ℚ
  total_conversions : ℚ
  total_spend : ℚ
  total_revenue : ℚ
  total_visits : ℚ
  ctr : ℚ
  cpc : ℚ
  cvr : ℚ
  cpa : ℚ
  roas : ℚ
  avg_daily_impressions : ℚ
  avg_daily_clicks : ℚ
  avg_daily_conversions : ℚ
deriving DecidableEq, Repr

/-- Embedding of `KPICalculator.calculate_basic_kpis`: totals over the whole
dataset and ratio KPIs, each ratio left at its initial value 0 unless its
denominator total is strictly positive. -/
def calculate_basic_kpis (df : List KRow) : BasicKpis :=
  let ti := colSum (df.map (·.impressions))
  let tk := colSum (df.map (·.clicks))
  let tc := colSum (df.map (·.conversions))
  let ts := colSum (df.map (·.spend))
  let tr := colSum (df.map (·.revenue))
  let tv := colSum (df.map (·.visits))
  let n : ℚ := (df.length : ℚ)
  { total_impressions := ti
    total_clicks := tk
    total_conversions := tc
    total_spend := ts
    total_revenue := tr
    total_visits := tv
    ctr := if ti > 0 then tk / ti * 100 else 0
    cpc := if tk > 0 then ts / tk else 0
    cvr := if tk > 0 then tc / tk * 100 else 0
    cpa := if tc > 0 then ts / tc else 0
    roas := if ts > 0 then tr / ts else 0
    avg_daily_impressions := if df.length > 0 then ti / n else 0
    avg_daily_clicks := if df.length > 0 then tk / n else 0
    avg_daily_conversions := if df.length > 0 then tc / n else 0 }

/-- Per-channel KPI record produced by `KPICalculator.calculate_by_channel`
(ratios guarded by positivity tests exactly as in the source). -/
structure ChannelKpi where
  channel : String
  impressions : ℚ
  clicks : ℚ
  conversions : ℚ
  spend : ℚ
  revenue : ℚ
  ctr : ℚ
  cpc : ℚ
  cvr : ℚ
  cpa : ℚ
  roas : ℚ
deriving DecidableEq, Repr

/-- Distinct values of a column in order of first appearance, as returned
by `pandas.Series.unique()`. -/
def uniqueVals (l : List String) : List String :=
  l.foldl (fun acc v => if v ∈ acc then acc else acc ++ [v]) []

/-- Embedding of `KPICalculator.calculate_by_channel`: for each distinct
channel value, totals over that channel's rows and guarded ratio KPIs. -/
def calculate_by_channel (df : List KRow) : List (String × ChannelKpi) :=
  (uniqueVals (df.map (·.channel))).map fun ch =>
    let sub := df.filter (fun r => r.channel = ch)
    let ti := colSum (sub.map (·.impressions))
    let tk := colSum (sub.map (·.clicks))
    let tc := colSum (sub.map (·.conversions))
    let ts := colSum (sub.map (·.spend))
    let tr := colSum (sub.map (·.revenue))
    (ch,
      { channel := ch
        impressions := ti, clicks := tk, conversions := tc
        spend := ts, revenue := tr
        ctr := if ti > 0 then tk / ti * 100 else 0
        cpc := if tk > 0 then ts / tk else 0
        cvr := if tk > 0 then tc / tk * 100 else 0
        cpa := if tc > 0 then ts / tc else 0
        roas := if ts > 0 then tr / ts else 0 })

/-- Insertion of an integer into an ascending sorted list (used to model
the ascending key sort performed by `DataFrame.groupby`). -/
def insertAsc (x : ℤ) : List ℤ → List ℤ
  | [] => [x]
  | y :: ys => if x ≤ y then x :: y :: ys else y :: insertAsc x ys

/-- Ascending sort of a list of integers. -/
def sortAsc : List ℤ → List ℤ
  | [] => []
  | x :: xs => insertAsc x (sortAsc xs)

/-- Distinct dates of the dataframe in ascending order — the group keys
produced by `groupby('date')`. -/
def sortedDates (df : List KRow) : List ℤ :=
  sortAsc ((df.map (·.date)).foldl (fun acc v => if v ∈ acc then acc else acc ++ [v]) [])

/-- One row of the time-series dataframe returned by
`KPICalculator.calculate_by_date`.  The ratio columns are pandas floats:
they are produced by unguarded columnwise division followed by
`fillna(0)`, so a nonzero numerator over a zero denominator remains a
signed infinity. -/
structure DateKpi where
  date : ℤ
  impressions : ℚ
  clicks : ℚ
  conversions : ℚ
  spend : ℚ
  revenue : ℚ
  visits : ℚ
  ctr : PFloat
  cpc : PFloat
  cvr : PFloat
  cpa : PFloat
  roas : PFloat
deriving DecidableEq, Repr

/-- Embedding of `KPICalculator.calculate_by_date`: group by calendar date,
sum each numeric column, then compute the five ratio columns by columnwise
division with `fillna(0)` applied to the result. -/
def calculate_by_date (df : List KRow) : List DateKpi :=
  (sortedDates df).map fun d =>
    let sub := df.filter (fun r => r.date = d)
    let ti := colSum (sub.map (·.impressions))
    let tk := colSum (sub.map (·.clicks))
    let tc := colSum (sub.map (·.conversions))
    let ts := colSum (sub.map (·.spend))
    let tr := colSum (sub.map (·.revenue))
    let tv := colSum (sub.map (·.visits))
    { date := d
      impressions := ti, clicks := tk, conversions := tc
      spend := ts, revenue := tr, visits := tv
      ctr := fillna0 (pmul (pdiv tk ti) (num 100))
      cpc := fillna0 (pdiv ts tk)
      cvr := fillna0 (pmul (pdiv tc tk) (num 100))
      cpa := fillna0 (pdiv ts tc)
      roas := fillna0 (pdiv tr ts) }

/- ----------------------------------------------------------------------
Anomaly Detector (`backend/anomaly_detector.py`)
---------------------------------------------------------------------- -/

/-- One detected anomaly as built by `AnomalyDetector`.  The
presentation-only `text` field of the Python dict is omitted; `value`,
`z_score`, `pct_change` and `baseline_mean` are pandas floats because the
source computes them by unguarded float arithmetic. -/
structure Anomaly where
  date : Option ℤ
  metric : String
  value : PFloat
  z_score : PFloat
  severity : String
  pct_change : PFloat
  baseline_mean : PFloat
  group : Option String
  group_col : Option String
deriving DecidableEq, Repr

/-- Embedding of `AnomalyDetector._calculate_severity`: the exclusive
threshold ladder `z > 3.0 → critical`, `z > 2.5 → warning`, otherwise
`info`. -/
def calculate_severity (z : ℚ) : String :=
  if z > 3 then "critical" else if z > 25/10 then "warning" else "info"

/-- Severity of a pandas-float Z-score under the same ladder: the Python
comparisons `z > 3.0` and `z > 2.5` are false for NaN and `-∞` and true
for `+∞`. -/
def severityP : PFloat → String
  | PFloat.num z => calculate_severity z
  | PFloat.posInf => "critical"
  | PFloat.negInf => "info"
  | PFloat.nan => "info"

/-- Embedding of `AnomalyDetector.calculate_z_scores`.  `col` is the metric
column (aligned with the dataframe index), `stdFn` models
`pandas.Series.std()` on the non-missing values.  An empty series is
returned when fewer than two non-missing values exist; when the standard
deviation is 0 every Z-score is the number 0; otherwise the columnwise
formula `|value - mean| / std` is applied (NaN cells stay NaN). -/
def calculate_z_scores (col : List (Option ℚ)) (stdFn : List ℚ → ℚ) :
    List PFloat :=
  let data := col.filterMap id
  if data.length < 2 then []
  else
    let m := listMean data
    if stdFn data = 0 then List.replicate col.length (PFloat.num 0)
    else col.map fun x =>
      match x with
      | some v => PFloat.num (|v - m| / stdFn data)
      | Option.none => PFloat.nan

/-- The anomaly record built in the ungrouped branch of
`AnomalyDetector.detect_anomalies_by_metric` for a flagged index. -/
def mkUngroupedAnomaly (metric : String) (dates : List ℤ)
    (col : List (Option ℚ)) (idx : ℕ) (z : PFloat) : Anomaly :=
  let value := PFloat.ofOpt (col.getD idx Option.none)
  let m := colMean col
  { date := dates.get? idx
    metric := metric
    value := value
    z_score := z
    severity := severityP z
    pct_change :=
      if pne0 m then pmul (pdivP (psub value m) m) (PFloat.num 100)
      else PFloat.num 0
    baseline_mean := m
    group := Option.none
    group_col := Option.none }

/-- The ungrouped branch of `AnomalyDetector.detect_anomalies_by_metric`:
every index whose Z-score is strictly greater than the configured
threshold yields an anomaly record. -/
def detectUngrouped (metric : String) (col : List (Option ℚ))
    (dates : List ℤ) (stdFn : List ℚ → ℚ) (threshold : ℚ) : List Anomaly :=
  ((calculate_z_scores col stdFn).enum).filterMap fun zi =>
    if pgtQ zi.2 threshold then
      some (mkUngroupedAnomaly metric dates col zi.1 zi.2)
    else Option.none

/-- The Z-score series computed inside
`AnomalyDetector._detect_within_group`: the unguarded columnwise
`|value - mean| / std` over the group's rows (the source has no zero-std
guard here, so a constant group produces NaN Z-scores; a group with fewer
than two non-missing values has a NaN standard deviation). -/
def groupZScores (col : List (Option ℚ)) (stdFn : List ℚ → ℚ) :
    List PFloat :=
  let data := col.filterMap id
  let m := colMean col
  let std : PFloat :=
    if data.length < 2 then PFloat.nan else PFloat.num (stdFn data)
  col.map fun x => pabs (pdivP (psub (PFloat.ofOpt x) m) std)

/-- Embedding of `AnomalyDetector._detect_within_group`.  Groups with fewer
than 3 rows are skipped; otherwise every index whose group Z-score is
strictly greater than the threshold yields an anomaly carrying the group
identity. -/
def detect_within_group (metric : String) (col : List (Option ℚ))
    (dates : List ℤ) (groupValue groupCol : String) (stdFn : List ℚ → ℚ)
    (threshold : ℚ) : List Anomaly :=
  if col.length < 3 then []
  else
    let m := colMean col
    let zs := groupZScores col stdFn
    (zs.enum).filterMap fun zi =>
      if pgtQ zi.2 threshold then
        some { date := dates.get? zi.1
               metric := metric
               value := PFloat.ofOpt (col.getD zi.1 Option.none)
               z_score := zi.2
               severity := severityP zi.2
               pct_change :=
                 if pne0 m then
                   pmul (pdivP (psub (PFloat.ofOpt (col.getD zi.1 Option.none)) m) m)
                     (PFloat.num 100)
                 else PFloat.num 0
               baseline_mean := m
               group := some groupValue
               group_col := some groupCol }
      else Option.none

/-- State and data of one `AnomalyDetector` instance: the numeric columns
and categorical columns of its dataframe (all aligned with `dates`), the
configured Z-score threshold, and the mutable `self.anomalies` list. -/
structure Detector where
  numCols : List (String × List (Option ℚ))
  catCols : List (String × List String)
  dates : List ℤ
  threshold : ℚ
  anomalies : List Anomaly
deriving Repr

/-- Lookup of a column by name in an association list of columns. -/
def lookupCol {α : Type} (cols : List (String × α)) (name : String) :
    Option α :=
  (cols.find? (fun c => c.1 = name)).map (·.2)

/-- The rows of a numeric column belonging to one group value, together
with their dates (the subset `group_data` taken in
`detect_anomalies_by_metric`). -/
def groupSubset (col : List (Option ℚ)) (gcol : List String)
    (dates : List ℤ) (v : String) : List (Option ℚ) × List ℤ :=
  let rows := ((col.zip gcol).zip dates).filter fun r => r.1.2 = v
  (rows.map (·.1.1), rows.map (·.2))

/-- Embedding of `AnomalyDetector.detect_anomalies_by_metric`: a missing
metric column yields no anomalies; with a grouping column present the
groups are scanned in first-appearance order via
`_detect_within_group`; otherwise (no grouping requested, or grouping
column absent) the whole dataset is scanned ungrouped. -/
def detect_anomalies_by_metric (d : Detector) (metric : String)
    (byGroup : Option String) (stdFn : List ℚ → ℚ) : List Anomaly :=
  ((lookupCol d.numCols metric).map fun col =>
    match byGroup with
    | some g =>
      (((lookupCol d.catCols g).map fun gcol =>
        (uniqueVals gcol).flatMap fun v =>
          let sub := groupSubset col gcol d.dates v
          detect_within_group metric sub.1 sub.2 v g stdFn
            d.threshold).getD
        (detectUngrouped metric col d.dates stdFn d.threshold))
    | Option.none =>
      detectUngrouped metric col d.dates stdFn d.threshold).getD []

/-- Embedding of `AnomalyDetector.detect_all_anomalies`: when no metric
list is given every numeric column is scanned; metrics with no anomalies
are dropped from the per-metric result dict; and `self.anomalies` is
ASSIGNED the flattened anomalies of this call (replacing, not extending,
any previous contents). -/
def detect_all_anomalies (d : Detector) (metricsOpt : Option (List String))
    (stdFn : List ℚ → ℚ) : List (String × List Anomaly) × Detector :=
  let metrics := metricsOpt.getD (d.numCols.map (·.1))
  let all := metrics.filterMap fun m =>
    let as := detect_anomalies_by_metric d m Option.none stdFn
    if as.isEmpty then Option.none else some (m, as)
  (all, { d with anomalies := all.flatMap (·.2) })

/-- Embedding of `AnomalyDetector.get_critical_anomalies`. -/
def get_critical_anomalies (d : Detector) : List Anomaly :=
  d.anomalies.filter (fun a => a.severity = "critical")

/-- Stable insertion into a descending-sorted list: the new element is
placed after every existing element that is strictly greater, so elements
with equal keys keep their original relative order (Python's stable sort
with `reverse=True`). -/
def insertDescBy {α : Type} (gt : α → α → Bool) (x : α) :
    List α → List α
  | [] => [x]
  | y :: ys => if gt y x then y :: insertDescBy gt x ys else x :: y :: ys

/-- Stable descending sort by a boolean strictly-greater comparator. -/
def sortDescBy {α : Type} (gt : α → α → Bool) : List α → List α
  | [] => []
  | x :: xs => insertDescBy gt x (sortDescBy gt xs)

/-- Embedding of `AnomalyDetector.get_top_anomalies`: optional severity
filter, stable sort by Z-score descending, truncation to the first `n`. -/
def get_top_anomalies (d : Detector) (n : ℕ) (sev : Option String) :
    List Anomaly :=
  let filtered :=
    match sev with
    | some s => d.anomalies.filter (fun a => a.severity = s)
    | Option.none => d.anomalies
  (sortDescBy (fun a b => pgtP a.z_score b.z_score) filtered).take n

/-- Tag of a recommendation record.  The Python code tags recommendations
with strings (`'spike_investigation'`, `'improve_ctr'`, …); the tags are
modelled as an inductive type, one constructor per distinct source
template. -/
inductive RecType where
  | urgentInvestigation
  | recurringAnomaly (metric : String)
  | spikeInvestigation
  | dropInvestigation
  | improveCtr
  | reduceCpc
  | improveCvr
  | improveRoas
  | scaleSuccess
deriving DecidableEq, Repr

/-- A recommendation record (`type`, `priority`, payload; the formatted
`text` field is presentation-only and omitted). -/
structure Rec where
  rtype : RecType
  priority : String
  detail : Option Anomaly := Option.none
  metric : Option String := Option.none
deriving DecidableEq, Repr

/-- Grouping of a list of anomalies by metric name in first-appearance
order, as the dict `by_metric` is built in
`generate_anomaly_recommendations`. -/
def groupByMetric (l : List Anomaly) : List (String × List Anomaly) :=
  (uniqueVals (l.map (·.metric))).map fun m =>
    (m, l.filter (fun a => a.metric = m))

/-- Embedding of `AnomalyDetector.generate_anomaly_recommendations`: one
urgent-investigation record when critical anomalies exist, one
recurring-issue record per metric with more than 2 anomalies, and one
spike or drop record for each of the first 3 critical anomalies (spike
when `pct_change > 0`, drop otherwise). -/
def generate_anomaly_recommendations (d : Detector) : List Rec :=
  let critical := get_critical_anomalies d
  let urgent : List Rec :=
    if critical.isEmpty then []
    else [{ rtype := RecType.urgentInvestigation, priority := "critical" }]
  let recurring : List Rec :=
    (groupByMetric d.anomalies).filterMap fun ml =>
      if ml.2.length > 2 then
        some { rtype := RecType.recurringAnomaly ml.1, priority := "high",
               metric := some ml.1 }
      else Option.none
  let spikeDrop : List Rec :=
    (critical.take 3).map fun a =>
      if pgtQ a.pct_change 0 then
        { rtype := RecType.spikeInvestigation, priority := "high",
          detail := some a }
      else
        { rtype := RecType.dropInvestigation, priority := "critical",
          detail := some a }
  urgent ++ recurring ++ spikeDrop

/- ----------------------------------------------------------------------
Weather Correlator (`backend/weather_analyzer.py`)
---------------------------------------------------------------------- -/

/-- Dataframe as consumed by `WeatherAnalyzer`: the list of present column
names and the rows, each row an association list from column name to a
possibly-missing numeric value. -/
structure WDf where
  cols : List String
  rows : List (List (String × Option ℚ))
deriving DecidableEq, Repr

/-- Value of a named cell in a row (`Option.none` both for an absent key
and for a NaN cell). -/
def cellVal (row : List (String × Option ℚ)) (name : String) : Option ℚ :=
  ((row.find? (fun c => c.1 = name)).map (·.2)).join

/-- Embedding of `WeatherAnalyzer.check_weather_data_available`: both
`temperature_c` and `rainfall_mm` columns must be present. -/
def check_weather_data_available (df : WDf) : Bool :=
  "temperature_c" ∈ df.cols ∧ "rainfall_mm" ∈ df.cols

/-- One correlation entry (`correlation`, `p_value`, `significant`) as
stored by `WeatherAnalyzer.calculate_correlations`. -/
structure CorrData where
  correlation : ℚ
  p_value : ℚ
  significant : Bool
deriving DecidableEq, Repr

/-- The fixed performance-metric candidates of
`WeatherAnalyzer.calculate_correlations`. -/
def performanceCols : List String :=
  ["conversions", "revenue", "visits", "clicks", "impressions"]

/-- The two weather columns. -/
def weatherCols : List String := ["temperature_c", "rainfall_mm"]

/-- The jointly non-missing (weather, performance) value pairs of a column
pair — the rows kept by `df[[perf_col, weather_col]].dropna()`. -/
def validPairs (df : WDf) (perfCol weatherCol : String) : List (ℚ × ℚ) :=
  df.rows.filterMap fun r =>
    (cellVal r perfCol).bind fun p =>
      (cellVal r weatherCol).map fun w => (w, p)

/-- Embedding of `WeatherAnalyzer.calculate_correlations`.  `pearson`
models `scipy.stats.pearsonr`, returning the coefficient and two-sided
p-value of a list of (x, y) samples.  Every available performance column
gets an entry; a weather pair is included under it only when more than 2
jointly non-missing observations exist, and `significant` records
`p_value < 0.05`. -/
def calculate_correlations (df : WDf)
    (pearson : List (ℚ × ℚ) → ℚ × ℚ) :
    List (String × List (String × CorrData)) :=
  if ¬ check_weather_data_available df then []
  else
    (performanceCols.filter (fun c => c ∈ df.cols)).map fun perfCol =>
      (perfCol,
        weatherCols.filterMap fun weatherCol =>
          let valid := validPairs df perfCol weatherCol
          if valid.length > 2 then
            let cp := pearson valid
            some (weatherCol,
              { correlation := cp.1, p_value := cp.2,
                significant := cp.2 < 1/20 })
          else Option.none)

/-- Embedding of `WeatherAnalyzer.get_strong_correlations`: keep, per
metric, the weather pairs with `|correlation| ≥ threshold` and
`significant`; metrics with no surviving pair are dropped. -/
def get_strong_correlations (threshold : ℚ)
    (correlations : List (String × List (String × CorrData))) :
    List (String × List (String × CorrData)) :=
  correlations.filterMap fun mw =>
    let kept := mw.2.filter fun wd =>
      |wd.2.correlation| ≥ threshold ∧ wd.2.significant
    if kept.isEmpty then Option.none else some (mw.1, kept)

/-- Membership of a (metric, weather, data) triple in a nested correlation
map. -/
def corrMem (corrs : List (String × List (String × CorrData)))
    (metric weather : String) (d : CorrData) : Prop :=
  ∃ wl, (metric, wl) ∈ corrs ∧ (weather, d) ∈ wl

/-- The five fixed temperature bands of
`WeatherAnalyzer.analyze_temperature_ranges` with their half-open bounds. -/
def tempRanges : List (String × ℚ × ℚ) :=
  [("cold", 0, 10), ("cool", 10, 15), ("mild", 15, 20),
   ("warm", 20, 25), ("hot", 25, 50)]

/-- The metric candidates of the categorical weather breakdowns. -/
def tempMetrics : List String := ["conversions", "revenue", "visits", "clicks"]

/-- Maximum of a column under pandas semantics (NaN skipped; NaN when no
value exists). -/
def colMax (col : List (Option ℚ)) : PFloat :=
  match col.filterMap id with
  | [] => PFloat.nan
  | x :: xs => PFloat.num (xs.foldl max x)

/-- Minimum of a column under pandas semantics (NaN skipped; NaN when no
value exists). -/
def colMin (col : List (Option ℚ)) : PFloat :=
  match col.filterMap id with
  | [] => PFloat.nan
  | x :: xs => PFloat.num (xs.foldl min x)

/-- Aggregate statistics of one metric within one temperature band. -/
structure StatRec where
  avg : PFloat
  total : ℚ
  pmax : PFloat
  pmin : PFloat
deriving DecidableEq, Repr

/-- Analysis record of one temperature band. -/
structure RangeAnalysis where
  count : ℕ
  metrics : List (String × StatRec)
deriving DecidableEq, Repr

/-- Whether a row falls into the half-open temperature interval
`[lo, hi)`; rows with missing temperature match no band. -/
def tempRowIn (lo hi : ℚ) (r : List (String × Option ℚ)) : Bool :=
  match cellVal r "temperature_c" with
  | some t => lo ≤ t ∧ t < hi
  | Option.none => false

/-- Embedding of `WeatherAnalyzer.analyze_temperature_ranges`: for each of
the five fixed bands, the subset of rows whose temperature lies in the
band; bands with no matching row are omitted; each available metric gets
mean/sum/max/min over the band's rows. -/
def analyze_temperature_ranges (df : WDf) :
    List (String × RangeAnalysis) :=
  if "temperature_c" ∉ df.cols then []
  else
    tempRanges.filterMap fun nr =>
      let sub := df.rows.filter (tempRowIn nr.2.1 nr.2.2)
      if sub.length > 0 then
        some (nr.1,
          { count := sub.length
            metrics := (tempMetrics.filter (fun m => m ∈ df.cols)).map fun m =>
              let mcol := sub.map (fun r => cellVal r m)
              (m, { avg := colMean mcol, total := colSum mcol,
                    pmax := colMax mcol, pmin := colMin mcol }) })
      else Option.none

/-- Python's `max(items, key=k)` on a nonempty list: the first element
whose key no later element strictly exceeds (the running maximum is
replaced only on a strictly greater key). -/
def pyMaxBy {α : Type} (gt : α → α → Bool) (x : α) (l : List α) : α :=
  l.foldl (fun acc item => if gt item acc then item else acc) x

/-- Key used by `generate_weather_insights` to rank temperature bands:
the band's average conversions, defaulting to the number 0 when absent. -/
def convAvgKey (e : String × RangeAnalysis) : PFloat :=
  match (e.2.metrics.find? (fun m => m.1 = "conversions")).map (·.2.avg) with
  | some v => v
  | Option.none => PFloat.num 0

/-- The temperature-band insight block of
`WeatherAnalyzer.generate_weather_insights`: when the band analysis is
nonempty, pick the best and worst band by average conversions (Python
`max`/`min` with NaN-rejecting float comparison) and emit the pair when
they differ. -/
def temperature_range_insight (df : WDf) : Option (String × String) :=
  match analyze_temperature_ranges df with
  | [] => Option.none
  | e :: rest =>
    let best := pyMaxBy (fun a b => pgtP (convAvgKey a) (convAvgKey b)) e rest
    let worst := pyMaxBy (fun a b => pltP (convAvgKey a) (convAvgKey b)) e rest
    if best.1 ≠ worst.1 then some (best.1, worst.1) else Option.none

/-- The temperature-band recommendation block of
`WeatherAnalyzer.generate_recommendations`: when more than one band is
present, recommend planning campaigns for the best band by average
conversions. -/
def temperature_range_recommendation (df : WDf) : Option String :=
  match analyze_temperature_ranges df with
  | [] => Option.none
  | e :: rest =>
    if (e :: rest).length > 1 then
      some (pyMaxBy (fun a b => pgtP (convAvgKey a) (convAvgKey b)) e rest).1
    else Option.none

/-- A row's temperature is present and outside the union `[0, 50)` of the
five bands. -/
def tempOutOfBands (r : List (String × Option ℚ)) : Bool :=
  match cellVal r "temperature_c" with
  | some t => t < 0 ∨ 50 ≤ t
  | Option.none => false

/-- The dataframe with the rows whose temperature lies outside `[0, 50)`
removed. -/
def dropOutOfBandRows (df : WDf) : WDf :=
  { df with rows := df.rows.filter (fun r => !tempOutOfBands r) }

/- ----------------------------------------------------------------------
Benchmark Comparator (`backend/benchmarking.py`)
---------------------------------------------------------------------- -/

/-- A value of a Python comparison dict: a rational number or a string. -/
inductive PyVal where
  | q (v : ℚ)
  | s (v : String)
deriving DecidableEq, Repr

/-- A comparison record, modelled as the key/value list of the Python dict
so that key presence is observable (the formatted `text` field is
presentation-only and omitted). -/
def PyRec : Type := List (String × PyVal)

/-- Lookup of a key in a comparison record. -/
def recGet (r : PyRec) (k : String) : Option PyVal :=
  (List.find? (fun c => c.1 = k) r).map (·.2)

/-- Numeric value of a key in a comparison record, defaulting to 0; the
source accesses these keys unconditionally on records that always carry
them. -/
def recGetQ (r : PyRec) (k : String) : ℚ :=
  match recGet r k with
  | some (PyVal.q v) => v
  | _ => 0

/-- The KPI-name to benchmark-name map shared by both comparison
granularities. -/
def kpiBenchMap : List (String × String) :=
  [("ctr", "avg_ctr"), ("cpc", "avg_cpc"), ("cvr", "avg_conversion_rate"),
   ("cpa", "avg_cpa"), ("roas", "avg_roas")]

/-- Embedding of `BenchmarkAnalyzer._get_badge` (emoji stripped to the
tier-describing text). -/
def get_badge (tier : String) : String :=
  if tier = "top_20" then "Top 20%"
  else if tier = "top_40" then "Top 40%"
  else if tier = "in_line" then "Inline"
  else if tier = "average" then "Average"
  else if tier = "bottom_40" then "Below Average"
  else if tier = "bottom_20" then "Bottom 20%"
  else "?"

/-- The overall-granularity tier ladder of
`BenchmarkAnalyzer.compare_overall_metrics`. -/
def overallTier (pct : ℚ) : String :=
  if |pct| < 5 then "in_line"
  else if pct > 20 then "top_20"
  else if pct > 10 then "top_40"
  else if pct < -20 then "bottom_20"
  else if pct < -10 then "bottom_40"
  else "average"

/-- Embedding of `BenchmarkAnalyzer.compare_overall_metrics`: for every
KPI present on both sides, difference, percentage difference (0 when the
benchmark is 0), sign-determined status, cost-inverted performance, and
the overall tier ladder.  Returns the empty dict when no `overall`
benchmark entry exists. -/
def compare_overall_metrics (overallKpis : List (String × ℚ))
    (benchmarks : List (String × List (String × ℚ))) :
    List (String × PyRec) :=
  if (lookupCol benchmarks "overall").isNone then []
  else
    let overallBench := (lookupCol benchmarks "overall").getD []
    kpiBenchMap.filterMap fun kb =>
      (lookupCol overallKpis kb.1).bind fun cv =>
      (lookupCol overallBench kb.2).map fun bv =>
        let diff := cv - bv
        let pct := if bv ≠ 0 then diff / bv * 100 else 0
        let status := if diff > 0 then "above" else "below"
        let performance :=
          if kb.1 = "cpc" ∨ kb.1 = "cpa" then
            if diff > 0 then "worse" else "better"
          else
            if diff > 0 then "better" else "worse"
        let tier := overallTier pct
        (kb.1,
          ([("client_value", PyVal.q cv),
            ("benchmark_value", PyVal.q bv),
            ("difference", PyVal.q diff),
            ("pct_difference", PyVal.q pct),
            ("status", PyVal.s status),
            ("performance", PyVal.s performance),
            ("tier", PyVal.s tier),
            ("badge", PyVal.s (get_badge tier))] : PyRec))

/-- The channel-granularity tier ladder of
`BenchmarkAnalyzer.compare_by_channel`. -/
def channelTier (pct : ℚ) : String :=
  if |pct| < 5 then "in_line"
  else if pct > 15 then "top_20"
  else if pct > 5 then "top_40"
  else if pct < -15 then "bottom_20"
  else if pct < -5 then "bottom_40"
  else "average"

/-- Embedding of `BenchmarkAnalyzer.compare_by_channel`: per channel
(falling back to the `overall` benchmark entry when no channel entry
exists), per KPI present on both sides, the channel tier ladder.  The
source computes a sign-based status whose two branches are identical and
then discards it: the emitted record carries neither a `status` nor a
`performance` key. -/
def compare_by_channel (byChannel : List (String × List (String × ℚ)))
    (benchmarks : List (String × List (String × ℚ))) :
    List (String × List (String × PyRec)) :=
  byChannel.map fun chk =>
    let cb0 := (lookupCol benchmarks chk.1).getD []
    let channelBench :=
      if cb0.isEmpty then (lookupCol benchmarks "overall").getD [] else cb0
    (chk.1,
      kpiBenchMap.filterMap fun kb =>
        (lookupCol chk.2 kb.1).bind fun cv =>
        (lookupCol channelBench kb.2).map fun bv =>
          let diff := cv - bv
          let pct := if bv ≠ 0 then diff / bv * 100 else 0
          let tier := channelTier pct
          (kb.1,
            ([("client_value", PyVal.q cv),
              ("benchmark_value", PyVal.q bv),
              ("pct_difference", PyVal.q pct),
              ("tier", PyVal.s tier),
              ("badge", PyVal.s (get_badge tier))] : PyRec)))

/-- A strength or weakness entry extracted from the overall comparison. -/
structure GapEntry where
  metric : String
  client_value : ℚ
  benchmark_value : ℚ
  pct : ℚ
  tier : String
deriving DecidableEq, Repr

/-- Embedding of `BenchmarkAnalyzer.get_strengths`: overall comparisons
with `pct_difference` above the cutoff, sorted descending by it. -/
def get_strengths (overallComp : List (String × PyRec))
    (minPctAbove : ℚ) : List GapEntry :=
  sortDescBy (fun a b => decide (a.pct > b.pct))
    (overallComp.filterMap fun md =>
      if recGetQ md.2 "pct_difference" > minPctAbove then
        some { metric := md.1,
               client_value := recGetQ md.2 "client_value",
               benchmark_value := recGetQ md.2 "benchmark_value",
               pct := recGetQ md.2 "pct_difference",
               tier := match recGet md.2 "tier" with
                       | some (PyVal.s t) => t
                       | _ => "" }
      else Option.none)

/-- Embedding of `BenchmarkAnalyzer.get_weaknesses`: overall comparisons
with `pct_difference` below the cutoff, carrying the magnitude
`pct_below = |pct_difference|`, sorted descending by it. -/
def get_weaknesses (overallComp : List (String × PyRec))
    (maxPctBelow : ℚ) : List GapEntry :=
  sortDescBy (fun a b => decide (a.pct > b.pct))
    (overallComp.filterMap fun md =>
      if recGetQ md.2 "pct_difference" < maxPctBelow then
        some { metric := md.1,
               client_value := recGetQ md.2 "client_value",
               benchmark_value := recGetQ md.2 "benchmark_value",
               pct := |recGetQ md.2 "pct_difference"|,
               tier := match recGet md.2 "tier" with
                       | some (PyVal.s t) => t
                       | _ => "" }
      else Option.none)

/-- Embedding of `BenchmarkAnalyzer.generate_benchmark_recommendations`:
for each of the first 3 weaknesses, a metric-specific remediation chosen
from the fixed ctr/cpc/cvr/roas lookup (other metrics produce nothing),
then one scale-the-winner record when any strength exists. -/
def generate_benchmark_recommendations
    (overallComp : List (String × PyRec)) : List Rec :=
  let weaknesses := get_weaknesses overallComp (-10)
  let strengths := get_strengths overallComp 10
  let wrecs : List Rec :=
    (weaknesses.take 3).filterMap fun w =>
      if w.metric = "ctr" then
        some { rtype := RecType.improveCtr, priority := "high",
               metric := some w.metric }
      else if w.metric = "cpc" then
        some { rtype := RecType.reduceCpc, priority := "high",
               metric := some w.metric }
      else if w.metric = "cvr" then
        some { rtype := RecType.improveCvr, priority := "high",
               metric := some w.metric }
      else if w.metric = "roas" then
        some { rtype := RecType.improveRoas, priority := "high",
               metric := some w.metric }
      else Option.none
  let srecs : List Rec :=
    if strengths.isEmpty then []
    else [{ rtype := RecType.scaleSuccess, priority := "medium" }]
  wrecs ++ srecs

/- ----------------------------------------------------------------------
Theorems
---------------------------------------------------------------------- -/

/-- Numeric rank of a severity label (`info < warning < critical`). -/
def sevRank (s : String) : ℕ :=
  if s = "critical" then 2 else if s = "warning" then 1 else 0

/-- The dataframe row of the failing input of claim C1: a calendar date
whose impressions total is 0 while its clicks total is 1. -/
def c1Row : KRow :=
  { date := 0, channel := "email", campaign := "camp", city := "pune",
    impressions := some 0, clicks := some 1, conversions := some 0,
    spend := some 0, revenue := some 0, visits := some 0 }

/-- C1: at the calendar-date granularity the zero-denominator invariant is
violated: on a date whose clicks sum to 1 while impressions sum to 0, the
`ctr` column of `calculate_by_date` is `+∞` (the columnwise division
produces infinity and `fillna(0)` only replaces NaN), not the number 0.
The guarded overall computation (`calculate_basic_kpis`) on the same data
does return 0 for every ratio, as the claim demands. -/
theorem C1_by_date_ratio_is_infinity :
    (calculate_by_date [c1Row]).map (·.ctr) = [PFloat.posInf] ∧
    PFloat.posInf ≠ PFloat.num 0 ∧
    (calculate_basic_kpis [c1Row]).ctr = 0 ∧
    (calculate_basic_kpis [c1Row]).cpc = 0 ∧
    (calculate_basic_kpis [c1Row]).cpa = 0 ∧
    (calculate_basic_kpis [c1Row]).roas = 0 := by
  refine ⟨?_, by decide, ?_, ?_, ?_, ?_⟩ <;>
    norm_num [calculate_by_date, calculate_basic_kpis, sortedDates, sortAsc,
      insertAsc, c1Row, colSum, listMean, PFloat.pdiv, PFloat.pmul,
      PFloat.fillna0, List.filterMap_cons, List.filter_cons, List.map_cons]

/-- C2: anomaly flagging and severity.  (i) every anomaly returned by the
ungrouped detection has a Z-score strictly greater than the configured
threshold (so a Z-score exactly equal to the threshold is never flagged);
(ii) every index whose Z-score strictly exceeds the threshold is flagged;
(iii) each flagged anomaly's severity is the ladder value of its Z-score;
(iv) the ladder is exclusive: `critical` exactly when `z > 3`, `warning`
exactly when `2.5 < z ≤ 3`, `info` exactly when `z ≤ 2.5`; (v) severity is
monotone in the Z-score; (vi) the boundary instances: `z = 3.1` is
critical, `z = 2.6` is warning, `z = 2.1` is info, and the flag predicate
rejects `z = 2.0` at threshold 2.0. -/
theorem C2_strict_threshold_and_severity_ladder :
    (∀ (metric : String) (col : List (Option ℚ)) (dates : List ℤ)
        (stdFn : List ℚ → ℚ) (th : ℚ) (a : Anomaly),
        a ∈ detectUngrouped metric col dates stdFn th →
        pgtQ a.z_score th = true) ∧
    (∀ (metric : String) (col : List (Option ℚ)) (dates : List ℤ)
        (stdFn : List ℚ → ℚ) (th : ℚ) (i : ℕ) (z : PFloat),
        (calculate_z_scores col stdFn)[i]? = some z →
        pgtQ z th = true →
        mkUngroupedAnomaly metric dates col i z ∈
          detectUngrouped metric col dates stdFn th) ∧
    (∀ (metric : String) (col : List (Option ℚ)) (dates : List ℤ)
        (stdFn : List ℚ → ℚ) (th : ℚ) (a : Anomaly),
        a ∈ detectUngrouped metric col dates stdFn th →
        a.severity = severityP a.z_score) ∧
    (∀ z : ℚ, (calculate_severity z = "critical" ↔ z > 3) ∧
        (calculate_severity z = "warning" ↔ (z ≤ 3 ∧ z > 5/2)) ∧
        (calculate_severity z = "info" ↔ z ≤ 5/2)) ∧
    (∀ z1 z2 : ℚ, z1 ≤ z2 →
        sevRank (calculate_severity z1) ≤ sevRank (calculate_severity z2)) ∧
    (calculate_severity (31/10) = "critical" ∧
      calculate_severity (26/10) = "warning" ∧
      calculate_severity (21/10) = "info" ∧
      pgtQ (PFloat.num 2) 2 = false) := by
  refine ⟨?_, ?_, ?_, ?_, ?_, by norm_num [calculate_severity],
    by norm_num [calculate_severity], by norm_num [calculate_severity],
    by norm_num [PFloat.pgtQ]⟩
  · intro metric col dates stdFn th a ha
    rw [detectUngrouped, List.mem_filterMap] at ha
    obtain ⟨zi, _, hf⟩ := ha
    by_cases hp : pgtQ zi.2 th = true
    · simp only [hp, if_true, Option.some.injEq] at hf
      subst hf
      exact hp
    · simp only [hp] at hf
      simp at hf
  · intro metric col dates stdFn th i z hz hp
    rw [detectUngrouped, List.mem_filterMap]
    refine ⟨(i, z), ?_, by simp [hp]⟩
    exact List.mk_mem_enum_iff_getElem?.mpr hz
  · intro metric col dates stdFn th a ha
    rw [detectUngrouped, List.mem_filterMap] at ha
    obtain ⟨zi, _, hf⟩ := ha
    by_cases hp : pgtQ zi.2 th = true
    · simp only [hp, if_true, Option.some.injEq] at hf
      subst hf
      rfl
    · simp only [hp] at hf
      simp at hf
  · intro z
    rw [calculate_severity]
    split_ifs with h1 h2
    · refine ⟨by simp [h1], by simp; intro h3; linarith, by simp; linarith⟩
    · push_neg at h1
      refine ⟨by simp; linarith, by simp; constructor <;> linarith,
        by simp; linarith⟩
    · push_neg at h1 h2
      refine ⟨by simp; linarith, by simp; intro h3; linarith,
        by simp; linarith⟩
  · intro z1 z2 h
    rw [calculate_severity, calculate_severity]
    split_ifs with h1 h2 h3 h4 h5 h6 <;> simp [sevRank] <;> linarith

/-- Witness for C2 at concrete inputs: the severity monotonicity applied at
`z1 = 1 ≤ z2 = 7/2`, and the membership characterization applied to the
singleton dataset whose only Z-score is the number 4 with threshold 2. -/
theorem C2_witness :
    sevRank (calculate_severity 1) ≤ sevRank (calculate_severity (7/2)) ∧
    pgtQ (Anomaly.z_score (mkUngroupedAnomaly "ctr" [0, 1] [some 0, some 8] 0
        (PFloat.num 4))) 2 = true := by
  constructor
  · exact C2_strict_threshold_and_severity_ladder.2.2.2.2.1 1 (7/2) (by norm_num)
  · exact C2_strict_threshold_and_severity_ladder.1 "ctr" [some 0, some 8]
      [0, 1] (fun _ => 1) 2 _
      (C2_strict_threshold_and_severity_ladder.2.1 "ctr" [some 0, some 8]
        [0, 1] (fun _ => 1) 2 0 (PFloat.num 4)
        (by norm_num [calculate_z_scores, listMean, List.filterMap_cons])
        (by norm_num [PFloat.pgtQ]))

/-- Helper: dropping the `Option` layer of an all-present constant column. -/
theorem filterMap_id_replicate (n : ℕ) (c : ℚ) :
    (List.replicate n (some c)).filterMap id = List.replicate n c := by
  induction n with
  | zero => rfl
  | succ k ih => simp [List.replicate_succ, ih]

/-- Helper: mean of a nonempty constant list. -/
theorem listMean_replicate (n : ℕ) (c : ℚ) (h : n ≠ 0) :
    listMean (List.replicate n c) = c := by
  have hn : (n : ℚ) ≠ 0 := Nat.cast_ne_zero.mpr h
  rw [listMean, List.sum_replicate, List.length_replicate, nsmul_eq_mul,
    mul_comm, mul_div_cancel_right₀ _ hn]

/-- Helper: sample variance of a constant list is 0. -/
theorem sampleVar_replicate (n : ℕ) (c : ℚ) (h : n ≠ 0) :
    sampleVar (List.replicate n c) = 0 := by
  rw [sampleVar, listMean_replicate n c h]
  simp

/-- Helper: column mean of a nonempty all-present constant column. -/
theorem colMean_replicate (n : ℕ) (c : ℚ) (h : n ≠ 0) :
    colMean (List.replicate n (some c)) = PFloat.num c := by
  rw [colMean, filterMap_id_replicate]
  rw [if_neg (by simp [List.isEmpty_iff, List.replicate_eq_nil_iff, h])]
  rw [listMean_replicate n c h]

/-- C3 counterexample.  On a constant 3-row group (value 5, whose sample
standard deviation is exactly 0, as the `IsStdOn` conjunct certifies), the
grouped Z-scores computed by `_detect_within_group` are NaN — not 0 as the
claim states.  Moreover "no anomaly is flagged regardless of the
configured threshold" fails in ungrouped mode: with threshold `-1` the
constant 2-row series (every Z-score the number 0) flags anomalies. -/
theorem C3_counterexample :
    IsStdOn (fun _ => 0) ([some (5:ℚ), some 5, some 5].filterMap id) ∧
    groupZScores [some (5:ℚ), some 5, some 5] (fun _ => 0) =
      [PFloat.nan, PFloat.nan, PFloat.nan] ∧
    PFloat.nan ≠ PFloat.num 0 ∧
    detectUngrouped "conversions" [some (5:ℚ), some 5] [0, 1]
      (fun _ => 0) (-1) ≠ [] := by
  refine ⟨⟨?_, le_refl 0⟩, ?_, by decide, ?_⟩
  · norm_num [sampleVar, listMean, List.filterMap_cons]
  · norm_num [groupZScores, colMean, listMean, PFloat.psub, PFloat.pdivP,
      PFloat.pdiv, PFloat.pabs, PFloat.ofOpt, List.filterMap_cons]
  · norm_num [detectUngrouped, calculate_z_scores, List.filterMap_cons,
      List.enum, List.enumFrom, PFloat.pgtQ]
    exact List.cons_ne_nil _ _

/-- C3 as amended: over any constant metric series (with `stdFn` the
sample standard deviation, which the `IsStdOn` hypothesis forces to be 0),
(i) in ungrouped mode every Z-score is the number 0, (ii) ungrouped
detection flags nothing for any nonnegative threshold but (iii) does flag
anomalies when the configured threshold is negative, and (iv) in grouped
mode every Z-score is NaN rather than 0, so (v) grouped detection flags
nothing for any threshold whatsoever. -/
theorem C3_amended_constant_series (n : ℕ) (c : ℚ)
    (metric gv gc : String) (dates : List ℤ) (stdFn : List ℚ → ℚ) (th : ℚ)
    (hstd : IsStdOn stdFn (List.replicate n c)) :
    (∀ z ∈ calculate_z_scores (List.replicate n (some c)) stdFn,
        z = PFloat.num 0) ∧
    (0 ≤ th →
      detectUngrouped metric (List.replicate n (some c)) dates stdFn th
        = []) ∧
    (th < 0 → 2 ≤ n →
      detectUngrouped metric (List.replicate n (some c)) dates stdFn th
        ≠ []) ∧
    (∀ z ∈ groupZScores (List.replicate n (some c)) stdFn,
        z = PFloat.nan) ∧
    detect_within_group metric (List.replicate n (some c)) dates gv gc
        stdFn th = [] := by
  have hdata := filterMap_id_replicate n c
  have hstd0 : 2 ≤ n → stdFn (List.replicate n c) = 0 := by
    intro h2
    have h0 : sampleVar (List.replicate n c) = 0 :=
      sampleVar_replicate n c (by omega)
    have hv := hstd.1
    rw [h0] at hv
    exact mul_self_eq_zero.mp hv
  have hzsmall : ¬ 2 ≤ n →
      calculate_z_scores (List.replicate n (some c)) stdFn = [] := by
    intro h2
    simp only [calculate_z_scores, hdata, List.length_replicate]
    rw [if_pos (by omega)]
  have hz0 : 2 ≤ n →
      calculate_z_scores (List.replicate n (some c)) stdFn =
        List.replicate n (PFloat.num 0) := by
    intro h2
    simp only [calculate_z_scores, hdata, List.length_replicate]
    rw [if_neg (by omega), if_pos (hstd0 h2)]
  have hgz : ∀ z ∈ groupZScores (List.replicate n (some c)) stdFn,
      z = PFloat.nan := by
    intro z hz
    simp only [groupZScores, hdata, List.length_replicate] at hz
    obtain ⟨x, hx, hfx⟩ := List.mem_map.mp hz
    have hxc := List.eq_of_mem_replicate hx
    subst hxc
    have hn0 : n ≠ 0 := by
      rintro rfl
      simp at hx
    rw [colMean_replicate n c hn0] at hfx
    by_cases h2 : n < 2
    · rw [if_pos h2] at hfx
      simp only [PFloat.ofOpt, PFloat.psub, PFloat.pdivP, PFloat.pabs]
        at hfx
      exact hfx.symm
    · rw [if_neg h2, hstd0 (by omega)] at hfx
      simp only [PFloat.ofOpt, PFloat.psub, sub_self, PFloat.pdivP,
        PFloat.pdiv] at hfx
      rw [if_neg (by simp), if_neg (by simp), if_neg (by simp)] at hfx
      simp only [PFloat.pabs] at hfx
      exact hfx.symm
  refine ⟨?_, ?_, ?_, hgz, ?_⟩
  · intro z hz
    by_cases h2 : 2 ≤ n
    · rw [hz0 h2] at hz
      exact List.eq_of_mem_replicate hz
    · rw [hzsmall h2] at hz
      cases hz
  · intro hth
    rw [detectUngrouped]
    apply List.filterMap_eq_nil_iff.mpr
    intro zi hzi
    have hz : zi.2 = PFloat.num 0 := by
      by_cases h2 : 2 ≤ n
      · rw [hz0 h2] at hzi
        have := List.mem_enum_iff_getElem?.mp hzi
        rw [List.getElem?_replicate] at this
        by_cases hlt : zi.1 < n
        · rw [if_pos hlt] at this
          exact (Option.some_inj.mp this).symm
        · rw [if_neg hlt] at this
          cases this
      · rw [hzsmall h2] at hzi
        simp at hzi
    rw [hz, if_neg]
    simp [PFloat.pgtQ]
    linarith
  · intro hth h2
    apply List.ne_nil_of_mem
      (a := mkUngroupedAnomaly metric dates (List.replicate n (some c)) 0
        (PFloat.num 0))
    rw [detectUngrouped, List.mem_filterMap]
    refine ⟨(0, PFloat.num 0), List.mk_mem_enum_iff_getElem?.mpr ?_, ?_⟩
    · rw [hz0 h2, List.getElem?_replicate, if_pos (by omega)]
    · rw [if_pos]
      simp [PFloat.pgtQ]
      linarith
  · rw [detect_within_group]
    by_cases h3 : (List.replicate n (some c)).length < 3
    · rw [if_pos h3]
    · rw [if_neg h3]
      apply List.filterMap_eq_nil_iff.mpr
      intro zi hzi
      have hz : zi.2 = PFloat.nan := by
        have hmem := List.mem_enum_iff_getElem?.mp hzi
        exact hgz zi.2 (List.getElem?_mem hmem)
      rw [hz]
      simp [PFloat.pgtQ]

/-- Witness for the amended C3 at a concrete constant series: three rows of
value 5, `stdFn` the constant-zero function (the true sample standard
deviation, as certified when applying the theorem), threshold 2. -/
theorem C3_witness :
    detect_within_group "conversions" (List.replicate 3 (some (5:ℚ)))
      [0, 1, 2] "email" "channel" (fun _ => 0) 2 = [] ∧
    detectUngrouped "conversions" (List.replicate 3 (some (5:ℚ)))
      [0, 1, 2] (fun _ => 0) 2 = [] := by
  have h := C3_amended_constant_series 3 5 "conversions" "email" "channel"
    [0, 1, 2] (fun _ => 0) 2
    (by constructor
        · norm_num [sampleVar, listMean]
        · exact le_refl 0)
  exact ⟨h.2.2.2.2, h.2.1 (by norm_num)⟩

/-- The overall tier ladder as the specification words it: `|pct| < 5` is
in line, above 20 top 20, above 10 top 40, below -20 bottom 20, below -10
bottom 40, anything else average. -/
def specOverallTier (pct : ℚ) : String :=
  if |pct| < 5 then "in_line"
  else if pct > 20 then "top_20"
  else if pct > 10 then "top_40"
  else if pct < -20 then "bottom_20"
  else if pct < -10 then "bottom_40"
  else "average"

/-- The channel tier ladder as the specification words it: `|pct| < 5` is
in line, above 15 top 20, above 5 top 40, below -15 bottom 20, below -5
bottom 40, anything else average. -/
def specChannelTier (pct : ℚ) : String :=
  if |pct| < 5 then "in_line"
  else if pct > 15 then "top_20"
  else if pct > 5 then "top_40"
  else if pct < -15 then "bottom_20"
  else if pct < -5 then "bottom_40"
  else "average"

set_option maxHeartbeats 1000000 in
/-- C4 counterexample: a channel-level comparison with
`pct_difference = 12` (client ctr 28 against benchmark 25) is tiered
`top_40` by the code's channel ladder (12 is not greater than 15), not
`top_20` as the claim states. -/
theorem C4_counterexample :
    (compare_by_channel [("email", [("ctr", 28)])]
        [("overall", [("avg_ctr", 25)])]).map
        (fun p => (p.1, p.2.map fun q =>
          (q.1, recGet q.2 "pct_difference", recGet q.2 "tier")))
      = [("email", [("ctr", some (PyVal.q 12), some (PyVal.s "top_40"))])] ∧
    "top_40" ≠ "top_20" := by
  constructor
  · simp [compare_by_channel, lookupCol, kpiBenchMap, channelTier, recGet,
      get_badge]
    all_goals norm_num
  · decide

set_option maxHeartbeats 1000000 in
/-- C4 as amended: the two granularities do use the claimed distinct tier
ladders (proved against spec-side reformulations of each ladder), and a
comparison whose `pct_difference` is 12 is tiered `top_40` at BOTH
granularities (at channel level 12 exceeds 5 but not 15); the asymmetry
the claim is after shows at other values, e.g. `pct = 7` (average overall,
top_40 at channel level) and `pct = 17` (top_40 overall, top_20 at channel
level). -/
theorem C4_amended_tier_ladders :
    (∀ pct : ℚ, overallTier pct = specOverallTier pct ∧
        channelTier pct = specChannelTier pct) ∧
    (compare_overall_metrics [("ctr", 28)]
        [("overall", [("avg_ctr", 25)])]).map
        (fun p => (p.1, recGet p.2 "pct_difference", recGet p.2 "tier"))
      = [("ctr", some (PyVal.q 12), some (PyVal.s "top_40"))] ∧
    (compare_by_channel [("email", [("ctr", 28)])]
        [("overall", [("avg_ctr", 25)])]).map
        (fun p => (p.1, p.2.map fun q =>
          (q.1, recGet q.2 "pct_difference", recGet q.2 "tier")))
      = [("email", [("ctr", some (PyVal.q 12), some (PyVal.s "top_40"))])] ∧
    overallTier 12 = "top_40" ∧ channelTier 12 = "top_40" ∧
    overallTier 7 = "average" ∧ channelTier 7 = "top_40" ∧
    overallTier 17 = "top_40" ∧ channelTier 17 = "top_20" := by
  refine ⟨fun pct => ⟨rfl, rfl⟩, ?_, ?_, ?_, ?_, ?_, ?_, ?_, ?_⟩
  · simp [compare_overall_metrics, lookupCol, kpiBenchMap, overallTier,
      recGet, get_badge]
    all_goals norm_num
  · simp [compare_by_channel, lookupCol, kpiBenchMap, channelTier, recGet,
      get_badge]
    all_goals norm_num
  all_goals norm_num [overallTier, channelTier]

set_option maxHeartbeats 1000000 in
/-- C5 counterexample: a channel-level cpc comparison with positive
difference (client 2 against benchmark 1) carries neither a `performance`
key nor a `status` key in its emitted record, so the claimed
`performance = worse` does not hold of every benchmark comparison. -/
theorem C5_counterexample :
    (compare_by_channel [("email", [("cpc", 2)])]
        [("overall", [("avg_cpc", 1)])]).map
        (fun p => (p.1, p.2.map fun q =>
          (q.1, recGet q.2 "status", recGet q.2 "performance")))
      = [("email", [("cpc", Option.none, Option.none)])] ∧
    (2 : ℚ) - 1 > 0 := by
  constructor
  · simp [compare_by_channel, lookupCol, kpiBenchMap, channelTier, recGet,
      get_badge]
  · norm_num

set_option maxHeartbeats 1600000 in
set_option maxRecDepth 4000 in
/-- C5 as amended: in every OVERALL benchmark comparison, `status` is
`above` exactly when `difference = client - benchmark` is positive and
`below` otherwise, and `performance` is inverted for the cost metrics
(`cpc`, `cpa`: positive difference is `worse`) while `ctr`, `cvr`, `roas`
read positive difference as `better`; channel-level comparison records
contain neither a `status` nor a `performance` key. -/
theorem C5_amended_status_performance (cv bv : ℚ) :
    ((compare_overall_metrics [("ctr", cv)]
        [("overall", [("avg_ctr", bv)])]).map
        (fun p => (p.1, recGet p.2 "status", recGet p.2 "performance"))
      = [("ctr", some (PyVal.s (if cv - bv > 0 then "above" else "below")),
          some (PyVal.s (if cv - bv > 0 then "better" else "worse")))]) ∧
    ((compare_overall_metrics [("cpc", cv)]
        [("overall", [("avg_cpc", bv)])]).map
        (fun p => (p.1, recGet p.2 "status", recGet p.2 "performance"))
      = [("cpc", some (PyVal.s (if cv - bv > 0 then "above" else "below")),
          some (PyVal.s (if cv - bv > 0 then "worse" else "better")))]) ∧
    ((compare_overall_metrics [("cvr", cv)]
        [("overall", [("avg_conversion_rate", bv)])]).map
        (fun p => (p.1, recGet p.2 "status", recGet p.2 "performance"))
      = [("cvr", some (PyVal.s (if cv - bv > 0 then "above" else "below")),
          some (PyVal.s (if cv - bv > 0 then "better" else "worse")))]) ∧
    ((compare_overall_metrics [("cpa", cv)]
        [("overall", [("avg_cpa", bv)])]).map
        (fun p => (p.1, recGet p.2 "status", recGet p.2 "performance"))
      = [("cpa", some (PyVal.s (if cv - bv > 0 then "above" else "below")),
          some (PyVal.s (if cv - bv > 0 then "worse" else "better")))]) ∧
    ((compare_overall_metrics [("roas", cv)]
        [("overall", [("avg_roas", bv)])]).map
        (fun p => (p.1, recGet p.2 "status", recGet p.2 "performance"))
      = [("roas", some (PyVal.s (if cv - bv > 0 then "above" else "below")),
          some (PyVal.s (if cv - bv > 0 then "better" else "worse")))]) ∧
    (∀ name : String,
      (compare_by_channel [("email", [(name, cv)])]
          [("overall", [("avg_ctr", bv), ("avg_cpc", bv),
            ("avg_conversion_rate", bv), ("avg_cpa", bv),
            ("avg_roas", bv)])]).map
          (fun p => (p.1, p.2.map fun q =>
            (q.1, recGet q.2 "status", recGet q.2 "performance")))
        = [("email",
            (kpiBenchMap.filterMap fun kb =>
              if kb.1 = name then some (kb.1, (Option.none : Option PyVal),
                (Option.none : Option PyVal))
              else Option.none))]) := by
  refine ⟨?_, ?_, ?_, ?_, ?_, ?_⟩ <;> [skip; skip; skip; skip; skip;
    intro name]
  case _ | _ | _ | _ | _ =>
    simp only [compare_overall_metrics, lookupCol, kpiBenchMap, recGet,
      List.filterMap_cons, List.filterMap_nil, List.find?_cons_of_pos,
      List.find?_cons_of_neg, List.find?_nil, List.map_cons, List.map_nil,
      Option.map_some, Option.map_none, Option.getD_some,
      Option.isNone_some, Option.some_bind]
    simp
  case _ =>
    by_cases h : name = "ctr" <;> by_cases h2 : name = "cpc" <;>
      by_cases h3 : name = "cvr" <;> by_cases h4 : name = "cpa" <;>
      by_cases h5 : name = "roas" <;> subst_vars <;>
      simp only [compare_by_channel, lookupCol, kpiBenchMap, recGet,
        List.filterMap_cons, List.filterMap_nil, List.find?_cons_of_pos,
        List.find?_cons_of_neg, List.find?_nil, List.map_cons,
        List.map_nil, Option.map_some, Option.map_none, Option.getD_some,
        Option.isNone_some, Option.some_bind] <;>
      simp_all [eq_comm]

/-- Helper: membership in the strong-correlation map is membership in the
input map together with the magnitude test and the stored significance
flag. -/
theorem corrMem_strong_iff (th : ℚ)
    (C : List (String × List (String × CorrData))) (m w : String)
    (d : CorrData) :
    corrMem (get_strong_correlations th C) m w d ↔
      (corrMem C m w d ∧ |d.correlation| ≥ th ∧ d.significant = true) := by
  constructor
  · rintro ⟨wl, hwl, hwd⟩
    rw [get_strong_correlations, List.mem_filterMap] at hwl
    obtain ⟨⟨m1, wl1⟩, hmw, hf⟩ := hwl
    by_cases hk : (wl1.filter fun wd =>
        |wd.2.correlation| ≥ th ∧ wd.2.significant).isEmpty = true
    · rw [if_pos hk] at hf
      cases hf
    · rw [if_neg hk] at hf
      simp only [Option.some.injEq, Prod.mk.injEq] at hf
      obtain ⟨h1, h2⟩ := hf
      subst h1
      rw [← h2] at hwd
      have hmem := List.mem_filter.mp hwd
      have hpred := of_decide_eq_true hmem.2
      exact ⟨⟨wl1, hmw, hmem.1⟩, hpred.1, hpred.2⟩
  · rintro ⟨⟨wl, hwl, hwd⟩, hmag, hsig⟩
    have hkept : (w, d) ∈ wl.filter fun wd =>
        |wd.2.correlation| ≥ th ∧ wd.2.significant := by
      rw [List.mem_filter]
      exact ⟨hwd, decide_eq_true (by exact ⟨hmag, hsig⟩)⟩
    refine ⟨wl.filter fun wd => |wd.2.correlation| ≥ th ∧ wd.2.significant,
      ?_, hkept⟩
    rw [get_strong_correlations, List.mem_filterMap]
    refine ⟨(m, wl), hwl, ?_⟩
    rw [if_neg]
    simp only [List.isEmpty_iff]
    exact fun hnil => by rw [hnil] at hkept; cases hkept

/-- Helper: every correlation entry stored by `calculate_correlations` has
its `significant` flag equal to the test `p_value < 0.05`. -/
theorem calc_significant_iff (df : WDf)
    (pearson : List (ℚ × ℚ) → ℚ × ℚ) (m w : String) (d : CorrData) :
    corrMem (calculate_correlations df pearson) m w d →
      (d.significant = true ↔ d.p_value < 1/20) := by
  rintro ⟨wl, hwl, hwd⟩
  rw [calculate_correlations] at hwl
  by_cases hav : check_weather_data_available df = true
  · rw [if_neg (by simp [hav])] at hwl
    obtain ⟨p, _, hp⟩ := List.mem_map.mp hwl
    simp only [Prod.mk.injEq] at hp
    obtain ⟨h1, h2⟩ := hp
    rw [← h2] at hwd
    obtain ⟨wc, _, hg⟩ := List.mem_filterMap.mp hwd
    by_cases hlen : (validPairs df p wc).length > 2
    · rw [if_pos hlen] at hg
      simp only [Option.some.injEq, Prod.mk.injEq] at hg
      rw [← hg.2]
      simp [decide_eq_true_eq]
    · rw [if_neg hlen] at hg
      cases hg
  · rw [if_pos (by simpa using hav)] at hwl
    cases hwl

/-- C6: a (metric, weather) pair appears in the strong-correlation output
(threshold 0.6) precisely when it was computed by the correlation pass and
satisfies BOTH `|r| ≥ 0.6` and `p < 0.05` — a high coefficient alone
(failing significance) is not strong. -/
theorem C6_strong_iff_magnitude_and_significance (df : WDf)
    (pearson : List (ℚ × ℚ) → ℚ × ℚ) (m w : String) (d : CorrData) :
    corrMem
        (get_strong_correlations (6/10) (calculate_correlations df pearson))
        m w d ↔
      (corrMem (calculate_correlations df pearson) m w d ∧
        |d.correlation| ≥ 6/10 ∧ d.p_value < 1/20) := by
  rw [corrMem_strong_iff]
  constructor
  · rintro ⟨hm, hmag, hsig⟩
    exact ⟨hm, hmag, (calc_significant_iff df pearson m w d hm).mp hsig⟩
  · rintro ⟨hm, hmag, hp⟩
    exact ⟨hm, hmag, (calc_significant_iff df pearson m w d hm).mpr hp⟩

/-- A weather dataframe row with temperature, rainfall and conversions. -/
def wRow (t r cvq : ℚ) : List (String × Option ℚ) :=
  [("conversions", some cvq), ("temperature_c", some t),
   ("rainfall_mm", some r)]

/-- A 3-row weather dataframe used as a concrete witness input. -/
def wdf3 : WDf :=
  { cols := ["conversions", "temperature_c", "rainfall_mm"],
    rows := [wRow 10 0 5, wRow 20 1 8, wRow 30 2 13] }

/-- Witness for C6 at concrete inputs: with a Pearson result of
`r = 0.65, p = 0.01` the conversions/temperature pair is strong, and with
`r = 0.9, p = 0.2` (high coefficient, failing significance) it is not. -/
theorem C6_witness :
    corrMem
      (get_strong_correlations (6/10)
        (calculate_correlations wdf3 (fun _ => (13/20, 1/100))))
      "conversions" "temperature_c"
      { correlation := 13/20, p_value := 1/100, significant := true } ∧
    ¬ corrMem
      (get_strong_correlations (6/10)
        (calculate_correlations wdf3 (fun _ => (9/10, 1/5))))
      "conversions" "temperature_c"
      { correlation := 9/10, p_value := 1/5, significant := false } := by
  constructor
  · apply (C6_strong_iff_magnitude_and_significance wdf3
      (fun _ => (13/20, 1/100)) "conversions" "temperature_c" _).mpr
    refine ⟨?_, by rw [abs_of_pos (by norm_num)]; norm_num, by norm_num⟩
    refine ⟨[("temperature_c",
      { correlation := 13/20, p_value := 1/100, significant := true }),
      ("rainfall_mm",
      { correlation := 13/20, p_value := 1/100, significant := true })],
      ?_, by simp⟩
    simp [calculate_correlations, check_weather_data_available, wdf3,
      performanceCols, weatherCols, validPairs, wRow, cellVal,
      List.filterMap_cons, List.filterMap_nil, CorrData.mk.injEq,
      decide_eq_true_eq]
    norm_num
  · intro hmem
    have := (C6_strong_iff_magnitude_and_significance wdf3
      (fun _ => (9/10, 1/5)) "conversions" "temperature_c" _).mp hmem
    have hp := this.2.2
    norm_num at hp

/-- C7: a (metric, weather) correlation entry exists in the output of
`calculate_correlations` precisely when the weather columns are available,
the metric is one of the five performance candidates present in the data,
and at least 3 jointly non-missing observations exist for the pair; with
fewer the pair is omitted entirely. -/
theorem C7_pair_computed_iff_3_observations (df : WDf)
    (pearson : List (ℚ × ℚ) → ℚ × ℚ) (m w : String) :
    (∃ d, corrMem (calculate_correlations df pearson) m w d) ↔
      (check_weather_data_available df = true ∧ m ∈ performanceCols ∧
        m ∈ df.cols ∧ w ∈ weatherCols ∧
        2 < (validPairs df m w).length) := by
  constructor
  · rintro ⟨d, wl, hwl, hwd⟩
    rw [calculate_correlations] at hwl
    by_cases hav : check_weather_data_available df = true
    · rw [if_neg (by simp [hav])] at hwl
      obtain ⟨p, hpmem, hp⟩ := List.mem_map.mp hwl
      simp only [Prod.mk.injEq] at hp
      obtain ⟨h1, h2⟩ := hp
      subst h1
      rw [← h2] at hwd
      obtain ⟨wc, hwc, hg⟩ := List.mem_filterMap.mp hwd
      by_cases hlen : (validPairs df p wc).length > 2
      · rw [if_pos hlen] at hg
        simp only [Option.some.injEq, Prod.mk.injEq] at hg
        have hw : wc = w := hg.1
        subst hw
        have hpm := List.mem_filter.mp hpmem
        exact ⟨hav, hpm.1, of_decide_eq_true hpm.2, hwc, hlen⟩
      · rw [if_neg hlen] at hg
        cases hg
    · rw [if_pos (by simpa using hav)] at hwl
      cases hwl
  · rintro ⟨hav, hmp, hmc, hwc, hlen⟩
    refine ⟨⟨(pearson (validPairs df m w)).1, (pearson (validPairs df m w)).2,
      decide ((pearson (validPairs df m w)).2 < 1/20)⟩,
      weatherCols.filterMap fun weatherCol =>
        if (validPairs df m weatherCol).length > 2 then
          some (weatherCol,
            ⟨(pearson (validPairs df m weatherCol)).1,
             (pearson (validPairs df m weatherCol)).2,
             decide ((pearson (validPairs df m weatherCol)).2 < 1/20)⟩)
        else Option.none, ?_, ?_⟩
    · rw [calculate_correlations, if_neg (by simp [hav])]
      apply List.mem_map.mpr
      refine ⟨m, List.mem_filter.mpr ⟨hmp, decide_eq_true hmc⟩, rfl⟩
    · apply List.mem_filterMap.mpr
      refine ⟨w, hwc, ?_⟩
      rw [if_pos hlen]

/-- Witness for C7 at a concrete input: on the 3-row weather dataframe the
conversions/temperature pair is computed (both directions of the
characterization applied concretely). -/
theorem C7_witness :
    (∃ d, corrMem (calculate_correlations wdf3 (fun _ => (1/2, 1/10)))
      "conversions" "temperature_c" d) ∧
    ¬ (∃ d, corrMem (calculate_correlations wdf3 (fun _ => (1/2, 1/10)))
      "revenue" "temperature_c" d) := by
  constructor
  · apply (C7_pair_computed_iff_3_observations wdf3 (fun _ => (1/2, 1/10))
      "conversions" "temperature_c").mpr
    refine ⟨by simp [check_weather_data_available, wdf3], by simp
      [performanceCols], by simp [wdf3], by simp [weatherCols], ?_⟩
    simp [validPairs, wdf3, wRow, cellVal]
  · intro hex
    have := (C7_pair_computed_iff_3_observations wdf3 (fun _ => (1/2, 1/10))
      "revenue" "temperature_c").mp hex
    have hrc := this.2.2.1
    simp [wdf3] at hrc

/-- The sample standard deviation of the concrete witness column
`[0, 0, 0, 1]` (used as the `stdFn` model of `pandas.Series.std`). -/
def c8Std : List ℚ → ℚ := fun _ => 1/2

/-- A concrete detector: two identical numeric columns `m1`, `m2` of four
rows `[0, 0, 0, 1]` (sample standard deviation `1/2`), threshold 1, empty
anomaly state. -/
def c8Detector : Detector :=
  { numCols := [("m1", [some 0, some 0, some 0, some 1]),
                ("m2", [some 0, some 0, some 0, some 1])],
    catCols := [], dates := [0, 1, 2, 3], threshold := 1, anomalies := [] }

/-- C8 counterexample: `self.anomalies` does NOT accumulate across
successive `detect_all_anomalies` calls.  The first call (metric `m1`
only) leaves exactly one `m1` anomaly in the state; the second call
(metric `m2` only) leaves exactly one `m2` anomaly — the `m1` anomaly
from the first call is gone, so the state holds only the latest call's
anomalies. -/
theorem C8_counterexample :
    ((detect_all_anomalies c8Detector (some ["m1"])
        c8Std).2.anomalies.map (·.metric) = ["m1"]) ∧
    ((detect_all_anomalies
        (detect_all_anomalies c8Detector (some ["m1"]) c8Std).2
        (some ["m2"]) c8Std).2.anomalies.map (·.metric)
      = ["m2"]) ∧
    ("m1" : String) ≠ "m2" := by
  have hz : calculate_z_scores [some (0:ℚ), some 0, some 0, some 1]
      c8Std = [num 2⁻¹, num 2⁻¹, num 2⁻¹, num (3/2)] := by
    norm_num [calculate_z_scores, listMean, List.filterMap_cons, c8Std]
    rw [show |(1:ℚ)/4| = 1/4 from abs_of_pos (by norm_num),
      show |(3:ℚ)/4| = 3/4 from abs_of_pos (by norm_num)]
    norm_num
  have hlow : pgtQ (num 2⁻¹) 1 = false := by norm_num [PFloat.pgtQ]
  have hhigh : pgtQ (num (3/2)) 1 = true := by norm_num [PFloat.pgtQ]
  refine ⟨?_, ?_, by decide⟩ <;>
    simp [detect_all_anomalies, detect_anomalies_by_metric, lookupCol,
      detectUngrouped, hz, hlow, hhigh, mkUngroupedAnomaly, c8Detector,
      List.enum, List.enumFrom, List.filterMap_cons,
      List.find?_cons_of_pos, List.find?_cons_of_neg, List.find?_nil]

/-- C8 as amended: each `detect_all_anomalies` call REPLACES the
detector's anomaly state with exactly the flattened anomalies of that
call, independent of whatever was accumulated before; and the ranking
(`get_top_anomalies`), the critical filter and the recommendation pass are
functions of that replaced list alone. -/
theorem C8_amended_state_replacement :
    (∀ (d : Detector) (ms : Option (List String)) (stdFn : List ℚ → ℚ)
        (prev : List Anomaly),
        (detect_all_anomalies { d with anomalies := prev }
            ms stdFn).2.anomalies
          = (detect_all_anomalies d ms stdFn).1.flatMap (·.2)) ∧
    (∀ d1 d2 : Detector, d1.anomalies = d2.anomalies →
      ∀ (n : ℕ) (sev : Option String),
        get_top_anomalies d1 n sev = get_top_anomalies d2 n sev ∧
        get_critical_anomalies d1 = get_critical_anomalies d2 ∧
        generate_anomaly_recommendations d1
          = generate_anomaly_recommendations d2) := by
  constructor
  · intro d ms stdFn prev
    rfl
  · intro d1 d2 h n sev
    refine ⟨?_, ?_, ?_⟩
    · rw [get_top_anomalies.eq_def, get_top_anomalies.eq_def, h]
    · rw [get_critical_anomalies, get_critical_anomalies, h]
    · rw [generate_anomaly_recommendations,
        generate_anomaly_recommendations, get_critical_anomalies,
        get_critical_anomalies, h]

/-- Witness for C8's amended statement: two concrete detectors differing
in data and threshold but with equal (empty) anomaly state rank and
recommend identically. -/
theorem C8_witness :
    get_top_anomalies c8Detector 5 Option.none =
      get_top_anomalies
        { numCols := [], catCols := [], dates := [], threshold := 2,
          anomalies := [] } 5 Option.none ∧
    (detect_all_anomalies { c8Detector with anomalies :=
        (detect_all_anomalies c8Detector (some ["m1"])
          c8Std).2.anomalies } (some ["m2"])
        c8Std).2.anomalies
      = (detect_all_anomalies c8Detector (some ["m2"])
          c8Std).1.flatMap (·.2) := by
  constructor
  · exact (C8_amended_state_replacement.2 c8Detector
      { numCols := [], catCols := [], dates := [], threshold := 2,
        anomalies := [] } rfl 5 Option.none).1
  · exact C8_amended_state_replacement.1 c8Detector (some ["m2"])
      c8Std
      (detect_all_anomalies c8Detector (some ["m1"])
        c8Std).2.anomalies

/-- Helper: a filtered selection of the first three elements of a list,
mapped into records, has at most 3 elements. -/
theorem length_filter_take3_map {α β : Type} (p : β → Bool) (f : α → β)
    (l : List α) : (((l.take 3).map f).filter p).length ≤ 3 :=
  le_trans (List.length_filter_le _ _)
    (by rw [List.length_map]; exact List.length_take_le _ _)

/-- Helper: a three-segment concatenation whose first two segments
contribute nothing to the filter and whose third contributes at most 3. -/
theorem length_filter_append3 {β : Type} (p : β → Bool) (a b c : List β)
    (ha : a.filter p = []) (hb : b.filter p = [])
    (hc : (c.filter p).length ≤ 3) :
    ((a ++ b ++ c).filter p).length ≤ 3 := by
  simp [List.filter_append, ha, hb, hc]

/-- Helper: a two-segment concatenation whose second segment contributes
nothing to the filter and whose first contributes at most 3. -/
theorem length_filter_append2 {β : Type} (p : β → Bool) (a b : List β)
    (ha : (a.filter p).length ≤ 3) (hb : b.filter p = []) :
    ((a ++ b).filter p).length ≤ 3 := by
  simp [List.filter_append, ha, hb]

/-- C9: the spike/drop investigation pass emits at most 3 recommendations
(one per top-3 critical anomaly) and the per-metric benchmark-weakness
pass emits at most 3 remediation recommendations, whatever the anomaly
state or benchmark comparison contents. -/
theorem C9_recommendation_count_bounds :
    (∀ d : Detector,
      ((generate_anomaly_recommendations d).filter fun r =>
          r.rtype = RecType.spikeInvestigation ∨
          r.rtype = RecType.dropInvestigation).length ≤ 3) ∧
    (∀ overallComp : List (String × PyRec),
      ((generate_benchmark_recommendations overallComp).filter fun r =>
          r.rtype = RecType.improveCtr ∨ r.rtype = RecType.reduceCpc ∨
          r.rtype = RecType.improveCvr ∨
          r.rtype = RecType.improveRoas).length ≤ 3) := by
  constructor
  · intro d
    simp only [generate_anomaly_recommendations]
    refine length_filter_append3 _ _ _ _ ?_ ?_ ?_
    · split_ifs <;> simp
    · rw [List.filter_eq_nil_iff]
      intro a ha
      obtain ⟨ml, _, hg⟩ := List.mem_filterMap.mp ha
      split_ifs at hg with hlen
      · rw [← Option.some.inj hg]
        simp
    · exact length_filter_take3_map _ _ _
  · intro overallComp
    simp only [generate_benchmark_recommendations]
    refine length_filter_append2 _ _ _ ?_ ?_
    · exact le_trans (List.length_filter_le _ _)
        (le_trans (List.length_filterMap_le _ _) (List.length_take_le _ _))
    · split_ifs <;> simp

/-- Helper: filtering away the rows whose temperature lies outside
`[0, 50)` does not change the subset of rows falling in any band
`[lo, hi) ⊆ [0, 50)`. -/
theorem filter_drop_out_of_bands (lo hi : ℚ) (hlo : 0 ≤ lo)
    (hhi : hi ≤ 50) (rows : List (List (String × Option ℚ))) :
    ((rows.filter fun r => !tempOutOfBands r).filter (tempRowIn lo hi))
      = rows.filter (tempRowIn lo hi) := by
  rw [List.filter_filter]
  apply List.filter_congr
  intro r _
  rcases h : cellVal r "temperature_c" with _ | t
  · simp [tempRowIn, h]
  · simp only [tempRowIn, tempOutOfBands, h]
    by_cases hin : lo ≤ t ∧ t < hi
    · have hout : ¬ (t < 0 ∨ 50 ≤ t) := by
        rintro (hc | hc) <;> [linarith [hin.1]; linarith [hin.2]]
      simp [hin, hout]
    · simp [hin]

/-- C10: rows whose temperature is below 0 or at least 50 fall in no
temperature band: removing them leaves the whole band analysis, the
best/worst-band insight and the temperature recommendation unchanged. -/
theorem C10_out_of_band_rows_are_ignored (df : WDf) :
    analyze_temperature_ranges (dropOutOfBandRows df)
      = analyze_temperature_ranges df ∧
    temperature_range_insight (dropOutOfBandRows df)
      = temperature_range_insight df ∧
    temperature_range_recommendation (dropOutOfBandRows df)
      = temperature_range_recommendation df := by
  have hA : analyze_temperature_ranges (dropOutOfBandRows df)
      = analyze_temperature_ranges df := by
    rw [analyze_temperature_ranges, analyze_temperature_ranges]
    simp only [dropOutOfBandRows]
    by_cases htc : "temperature_c" ∉ df.cols
    · rw [if_pos htc, if_pos htc]
    · rw [if_neg htc, if_neg htc]
      apply List.filterMap_congr
      intro nr hnr
      fin_cases hnr <;>
        rw [filter_drop_out_of_bands _ _ (by norm_num) (by norm_num)]
  refine ⟨hA, ?_, ?_⟩
  · rw [temperature_range_insight, temperature_range_insight, hA]
  · rw [temperature_range_recommendation, temperature_range_recommendation,
      hA]

end GroundTruth
